import Mathlib

/-!
Verification development for the `SuperTaskPilot` task-execution engine
(`superpilot/core/pilot/task/super.py`).  The engine's own code is embedded
from the source; the supporting schema types (`Task`, `TaskContext`,
`AbilityAction`, the ability registry, the model-provider interface), which
live in modules of this repository outside the embedded sources, are
modelled from the specification and documented as such.  Environment reads
(OS descriptor, wall clock, provider budget) and the two external effectful
calls (the language-model completion and the ability bodies) are modelled
as explicit function-valued fields, so a run of the engine is a pure
computation.  Python exceptions are modelled with `Except`.
-/

namespace Superpilot

/-- Modelled from the spec: the task status enum of the planning schema
(section 3 of the spec: one of PENDING, IN_PROGRESS, DONE, FAILED). -/
inductive TaskStatus where
  | PENDING
  | IN_PROGRESS
  | DONE
  | FAILED
deriving DecidableEq, Repr

/-- Modelled from the spec: the execution-mode enum of the planning schema
(section 3: SEQUENTIAL, PARALLEL, AUTO, SIMPLE). -/
inductive ExecutionNature where
  | SEQUENTIAL
  | PARALLEL
  | AUTO
  | SIMPLE
deriving DecidableEq, Repr

/-- Modelled from the spec: the model-tier tag of the planning settings
(FAST vs SMART). -/
inductive LanguageModelClassification where
  | FAST_MODEL
  | SMART_MODEL
deriving DecidableEq, Repr

/-- Arguments supplied to an ability, a mapping of argument names to values
(values represented by strings). -/
abbrev AbilityArgs : Type := List (String × String)

/-- Modelled from the spec: the immutable record of one ability invocation
(section 3, Ability Action: ability name, arguments, result, extracted
knowledge items). -/
structure AbilityAction where
  ability_name : String
  arguments : AbilityArgs
  result : String
  memories : List String
deriving DecidableEq, Repr

/-- Modelled from the spec: an Ability Action exposes its extracted knowledge
items, consumed by the task context (used at super.py line 192). -/
def AbilityAction.get_memories (a : AbilityAction) : List String :=
  a.memories

/-- Modelled from the spec: the task's mutable execution context (section 3,
Execution Context: cycle count, prior actions, memories, completion flags). -/
structure TaskContext where
  cycle_count : Nat
  prior_actions : List AbilityAction
  memories : List String
  status : TaskStatus
  enough_info : Bool
deriving DecidableEq, Repr

/-- Modelled from the spec: a Task couples a free-text objective with its
execution context (section 3, Task). -/
structure Task where
  objective : String
  context : TaskContext
deriving DecidableEq, Repr

/-- Modelled from the spec: `Task.factory` materialises a task from an
objective string with a fresh context (section 3, Task lifecycle; section
4.4 step 1). -/
def Task.factory (objective : String) : Task :=
  { objective := objective
    context :=
      { cycle_count := 0
        prior_actions := []
        memories := []
        status := TaskStatus.PENDING
        enough_info := false } }

/-- Modelled from the spec: the engine-held `Context` object of
`core.context.schema`, a knowledge container distinct from the task's
execution context; represented by its list of content items.  It is the
type of `self._current_context` (super.py lines 107, 118, 125). -/
structure Context where
  items : List String
deriving DecidableEq, Repr

/-- Modelled from the spec: the error taxonomy visible to the engine
(section 7), plus `keyError` for Python's KeyError on a missing response
key (super.py line 165). -/
inductive EngineError where
  | configuration (msg : String)
  | unknownAbility (nm : String)
  | abilityExecution (nm : String) (msg : String)
  | responseParse (msg : String)
  | provider (msg : String)
  | keyError (key : String)
deriving DecidableEq, Repr

/-- Tests whether an engine error is a configuration (construction-time
validation) error. -/
def EngineError.isConfiguration : EngineError → Bool
  | EngineError.configuration _ => true
  | _ => false

/-- Schema dump of one ability: its name and description as embedded into a
prompt or function-calling interface (spec section 4.1, dump_abilities). -/
structure AbilitySchema where
  name : String
  description : String
deriving DecidableEq, Repr

/-- Modelled from the spec: an ability is a named capability with an
invocable body (section 6, Ability interface).  The body either produces a
result together with extracted knowledge items, or faults with a message. -/
structure Ability where
  name : String
  description : String
  body : AbilityArgs → Except String (String × List String)

/-- Dump of one ability into its prompt schema (spec section 4.1). -/
def Ability.dump (a : Ability) : AbilitySchema :=
  { name := a.name, description := a.description }

/-- Modelled from the spec: the ability registry holds the configured
abilities in stable registration order (section 4.1), immutable for the
lifetime of a pilot. -/
structure AbilityRegistry where
  abilities : List Ability

/-- Schema dumps for every registered ability, in registration order
(spec section 4.1, dump_abilities). -/
def AbilityRegistry.dump_abilities (r : AbilityRegistry) : List AbilitySchema :=
  r.abilities.map Ability.dump

/-- Lookup of an ability by name (spec section 4.1). -/
def AbilityRegistry.find (r : AbilityRegistry) (nm : String) : Option Ability :=
  r.abilities.find? (fun a => a.name == nm)

/-- Modelled from the spec: `AbilityRegistry.perform` looks the ability up by
name (UnknownAbilityError if absent), invokes its body (AbilityExecutionError
carrying the name and the fault if the body raises) and wraps the raw result
into an Ability Action (section 4.1). -/
def AbilityRegistry.perform (r : AbilityRegistry) (nm : String) (args : AbilityArgs) :
    Except EngineError AbilityAction :=
  match r.find nm with
  | none => Except.error (EngineError.unknownAbility nm)
  | some a =>
    match a.body args with
    | Except.error msg => Except.error (EngineError.abilityExecution nm msg)
    | Except.ok (res, mems) =>
      Except.ok { ability_name := nm, arguments := args, result := res, memories := mems }

/-- Modelled from the spec: the part of a parsed language-model response the
engine reads (super.py lines 163-166): the `next_ability` key of the content
(absent key modelled as `none`; reading it then raises KeyError) and the
`ability_arguments` key (read with a default of no arguments). -/
structure LanguageModelResponse where
  next_ability : Option String
  ability_arguments : AbilityArgs
deriving DecidableEq, Repr

/-- Template-variable values: the heterogeneous values stored in the keyword
dictionaries flowing into prompt construction (strings, numbers, the task
and the ability schema). -/
inductive TValue where
  | str (s : String)
  | nat (n : Nat)
  | task (t : Task)
  | schema (l : List AbilitySchema)
deriving DecidableEq, Repr

/-- A Python keyword dictionary, modelled extensionally as a partial map
from key to value. -/
abbrev PyDict : Type := String → Option TValue

/-- Python `d1.update(d2)` followed by use of `d1`: on a key collision the
value of `d2` wins, otherwise the value of `d1` is kept. -/
def pyUpdate (d1 d2 : PyDict) : PyDict :=
  fun k =>
    match d2 k with
    | some v => some v
    | none => d1 k

/-- A structured prompt: role-tagged messages plus the function schemas
offered to the model (spec section 4.2). -/
structure Prompt where
  messages : List String
  functions : List AbilitySchema

/-- A prompt strategy: its declared model tier and its prompt builder
(spec section 4.2).  The response parser runs inside the provider call and
is absorbed into the provider oracle. -/
structure PromptStrategy where
  model_classification : LanguageModelClassification
  build_prompt : PyDict → Prompt

/-- Modelled from the spec: the model-provider adapter (section 4.3).  The
completion call is an oracle from the built prompt to a parsed response or a
failure (provider faults and parse failures both surface here); the
remaining budget is the advisory quota signal. -/
structure Provider where
  remaining_budget : Nat
  create_language_completion : Prompt → Except EngineError LanguageModelResponse

/-- The engine state of one `SuperTaskPilot` instance: the fields assigned in
`__init__` (super.py lines 79-107) that the execution loop reads or writes.
Environment reads are snapshots: `os_info` models `get_os_info()` (a
platform read, super.py lines 353-360) and `current_time` models
`time.strftime` (super.py line 248). -/
structure Pilot where
  execution_nature : ExecutionNature
  ability_registry : AbilityRegistry
  prompt_strategy : PromptStrategy
  providers : LanguageModelClassification → Provider
  max_task_cycle_count : Nat
  os_info : String
  current_time : String

/-- The mutable per-run state of the engine: task queue, completed tasks, the
current task and the engine-held context (super.py lines 102-107). -/
structure PilotState where
  task_queue : List Task
  completed_tasks : List Task
  current_task : Task
  current_context : Context
deriving DecidableEq, Repr

def osInfoKey : String := "os_info"
def apiBudgetKey : String := "api_budget"
def currentTimeKey : String := "current_time"
def taskKey : String := "task"
def abilitySchemaKey : String := "ability_schema"
def nextAbilityKey : String := "next_ability"

namespace SuperTaskPilot

/-- Embeds `_make_template_kwargs_for_strategy` (super.py lines 243-250): the
runtime-context template variables, looked up from the provider for the
strategy's model tier. -/
def make_template_kwargs_for_strategy (p : Pilot) (strategy : PromptStrategy) : PyDict :=
  fun k =>
    if k = osInfoKey then some (TValue.str p.os_info)
    else if k = apiBudgetKey then
      some (TValue.nat ((p.providers strategy.model_classification).remaining_budget))
    else if k = currentTimeKey then some (TValue.str p.current_time)
    else none

/-- The keyword dictionary `chat_with_model` passes to `build_prompt`
(super.py lines 229-231): the runtime-context variables updated with the
caller-supplied keyword arguments. -/
def chatMergedKwargs (p : Pilot) (strategy : PromptStrategy) (kwargs : PyDict) : PyDict :=
  pyUpdate (make_template_kwargs_for_strategy p strategy) kwargs

/-- Embeds `chat_with_model` (super.py lines 217-241): selects the provider
for the strategy's model tier, merges the runtime-context template variables
with the caller's keyword arguments (caller wins), builds the prompt and
dispatches the completion call.  The model-configuration dictionary (model
name, temperature, with `provider_name` deleted) only parameterises the
provider call and is absorbed into the provider oracle. -/
def chat_with_model (p : Pilot) (strategy : PromptStrategy) (kwargs : PyDict) :
    Except EngineError LanguageModelResponse :=
  let provider := p.providers strategy.model_classification
  let prompt := strategy.build_prompt (chatMergedKwargs p strategy kwargs)
  provider.create_language_completion prompt

/-- The keyword dictionary built at the call sites of `chat_with_model` in
`determine_exec_ability` and `determine_next_ability` (super.py lines
200-205 and 210-215): the explicit `task` and `ability_schema` keywords
together with the forwarded keyword arguments. -/
def withCallArgs (task : Task) (schema : List AbilitySchema) (kwargs : PyDict) : PyDict :=
  fun k =>
    if k = taskKey then some (TValue.task task)
    else if k = abilitySchemaKey then some (TValue.schema schema)
    else kwargs k

/-- Embeds `determine_exec_ability` (super.py lines 197-205). -/
def determine_exec_ability (p : Pilot) (task : Task) (schema : List AbilitySchema)
    (kwargs : PyDict) : Except EngineError LanguageModelResponse :=
  chat_with_model p p.prompt_strategy (withCallArgs task schema kwargs)

/-- Embeds `determine_next_ability` (super.py lines 207-215). -/
def determine_next_ability (p : Pilot) (task : Task) (schema : List AbilitySchema)
    (kwargs : PyDict) : Except EngineError LanguageModelResponse :=
  chat_with_model p p.prompt_strategy (withCallArgs task schema kwargs)

/-- The mode-dependent model call at the head of `perform_ability` (super.py
lines 155-162): `determine_next_ability` in AUTO mode, otherwise
`determine_exec_ability`.  The task given to the call is the current task of
the state: the `task` argument of `perform_ability` aliases
`self._current_task` (assigned at super.py line 117), which
`_update_tasks_and_memory` mutates in place. -/
def determineResult (p : Pilot) (st : PilotState) (schema : List AbilitySchema)
    (kwargs : PyDict) : Except EngineError LanguageModelResponse :=
  if p.execution_nature = ExecutionNature.AUTO then
    determine_next_ability p st.current_task schema kwargs
  else
    determine_exec_ability p st.current_task schema kwargs

/-- Embeds `_update_tasks_and_memory` (super.py lines 176-193): increments
the current task context's cycle count, appends the ability result to its
prior actions, marks the status DONE, sets `enough_info` and overwrites the
memories with the result's extracted knowledge. -/
def update_tasks_and_memory (st : PilotState) (ability_result : AbilityAction) : PilotState :=
  { st with
    current_task :=
      { st.current_task with
        context :=
          { cycle_count := st.current_task.context.cycle_count + 1
            prior_actions := st.current_task.context.prior_actions ++ [ability_result]
            status := TaskStatus.DONE
            enough_info := true
            memories := ability_result.get_memories } } }

/-- Embeds `perform_ability` (super.py lines 152-174): the mode-dependent
model call, the read of the response's `next_ability` key (KeyError if
absent) and `ability_arguments` key (defaulting to no arguments), the
registry invocation, the task/memory update, and queueing the current task
into the completed list (status DONE) or back into the task queue.  Python
exceptions propagate as `Except.error`. -/
def perform_ability (p : Pilot) (st : PilotState) (schema : List AbilitySchema)
    (kwargs : PyDict) : Except EngineError (AbilityAction × PilotState) :=
  match determineResult p st schema kwargs with
  | Except.error e => Except.error e
  | Except.ok response =>
    let ability_args := response.ability_arguments
    match response.next_ability with
    | none => Except.error (EngineError.keyError nextAbilityKey)
    | some nm =>
      match p.ability_registry.perform nm ability_args with
      | Except.error e => Except.error e
      | Except.ok ability_action =>
        let st1 := update_tasks_and_memory st ability_action
        let st2 :=
          if st1.current_task.context.status = TaskStatus.DONE then
            { st1 with completed_tasks := st1.completed_tasks ++ [st1.current_task] }
          else
            { st1 with task_queue := st1.task_queue ++ [st1.current_task] }
        Except.ok (ability_action, st2)

/-- Runs `perform_ability` once per ability of the given list, in order, each
with that single ability's schema dump, collecting the ability actions
(super.py lines 143-147, the SEQUENTIAL arm; also the linearisation of the
PARALLEL arm, lines 130-136, where `asyncio.gather` awaits all coroutines
and every context mutation is serialised through `_update_tasks_and_memory`).
An exception from one invocation aborts the remainder. -/
def execAbilitiesSeq (p : Pilot) (kwargs : PyDict) :
    List Ability → PilotState → Except EngineError (List AbilityAction × PilotState)
  | [], st => Except.ok ([], st)
  | a :: rest, st =>
    match perform_ability p st [a.dump] kwargs with
    | Except.error e => Except.error e
    | Except.ok (act, st') =>
      match execAbilitiesSeq p kwargs rest st' with
      | Except.error e => Except.error e
      | Except.ok (acts, st'') => Except.ok (act :: acts, st'')

/-- Embeds `exec_abilities` (super.py lines 127-150): the execution-mode
dispatch.  PARALLEL invokes `perform_ability` for every registered ability
and collects every result before returning; AUTO makes a single
`perform_ability` call over the whole ability catalogue; every other mode
(the final `else` arm of the source) runs one `perform_ability` per
registered ability, in registration order. -/
def exec_abilities (p : Pilot) (kwargs : PyDict) (st : PilotState) :
    Except EngineError (List AbilityAction × PilotState) :=
  match p.execution_nature with
  | ExecutionNature.PARALLEL => execAbilitiesSeq p kwargs p.ability_registry.abilities st
  | ExecutionNature.AUTO =>
    match perform_ability p st p.ability_registry.dump_abilities kwargs with
    | Except.error e => Except.error e
    | Except.ok (act, st') => Except.ok ([act], st')
  | _ => execAbilitiesSeq p kwargs p.ability_registry.abilities st

/-- The schema argument of each `perform_ability` call one `exec_abilities`
cycle makes, in call order, read off the dispatch at super.py lines 127-150:
one call with the whole catalogue in AUTO mode, one call per registered
ability with that ability's own dump otherwise. -/
def execAbilitiesModelCalls (p : Pilot) : List (List AbilitySchema) :=
  match p.execution_nature with
  | ExecutionNature.PARALLEL => p.ability_registry.abilities.map (fun a => [a.dump])
  | ExecutionNature.AUTO => [p.ability_registry.dump_abilities]
  | _ => p.ability_registry.abilities.map (fun a => [a.dump])

/-- The loop guard of `execute` (super.py line 122):
`self._current_task != TaskStatus.DONE` compares the Task object itself with
the enum member `TaskStatus.DONE`.  A Task value and a TaskStatus value are
of different types and no cross-type equality is defined for them, so
Python's `!=` between them is always true, whatever the task's status. -/
def taskNeDone (_t : Task) : Bool := true

/-- Outcome of running the `execute` loop with a given amount of fuel:
either the guard became false and the loop exited, returning
`self._current_context` (super.py line 125), or the fuel ran out with the
guard still true. -/
inductive LoopOutcome where
  | exited (ret : Context) (st : PilotState)
  | running (st : PilotState)
deriving DecidableEq, Repr

/-- The `while` loop of `execute` (super.py lines 122-125), fuel-indexed:
while the guard holds, run one `exec_abilities` cycle and continue;
exceptions propagate. -/
def executeLoop (p : Pilot) (kwargs : PyDict) :
    Nat → PilotState → Except EngineError LoopOutcome
  | 0, st => Except.ok (LoopOutcome.running st)
  | Nat.succ n, st =>
    if taskNeDone st.current_task then
      match exec_abilities p kwargs st with
      | Except.error e => Except.error e
      | Except.ok (_ability_actions, st') => executeLoop p kwargs n st'
    else
      Except.ok (LoopOutcome.exited st.current_context st)

/-- Embeds `execute` (super.py lines 109-125): materialises a Task from a
string objective (or accepts a pre-built Task), installs it as the current
task, replaces the engine context with the caller-supplied one when the
`context` keyword is present, and runs the loop. -/
def execute (p : Pilot) (objective : String ⊕ Task) (ctxArg : Option Context)
    (kwargs : PyDict) (fuel : Nat) (st0 : PilotState) : Except EngineError LoopOutcome :=
  let task :=
    match objective with
    | Sum.inl s => Task.factory s
    | Sum.inr t => t
  let st1 :=
    { st0 with
      current_task := task
      current_context := ctxArg.getD st0.current_context }
  executeLoop p kwargs fuel st1

end SuperTaskPilot

/-! Concrete fixtures, used to evaluate the engine on explicit inputs: a
pilot with one benign ability and a provider that always selects it, plus
variants for the other execution modes, for a model response naming an
unregistered ability, and for an empty registry. -/

/-- Whether a loop run exited through the loop guard. -/
def loopExited : Except EngineError SuperTaskPilot.LoopOutcome → Bool
  | Except.ok (SuperTaskPilot.LoopOutcome.exited _ _) => true
  | _ => false

/-- The number of ability actions of a successful `exec_abilities` cycle
(zero when the cycle raised). -/
def actsLenOf : Except EngineError (List AbilityAction × PilotState) → Nat
  | Except.ok (acts, _) => acts.length
  | Except.error _ => 0

/-- Whether an engine computation completed without an exception. -/
def exceptOk {α : Type} : Except EngineError α → Bool
  | Except.ok _ => true
  | Except.error _ => false

/-- The current task's cycle count at the end of a loop run (zero when the
run raised). -/
def cycleCountOfOutcome : Except EngineError SuperTaskPilot.LoopOutcome → Nat
  | Except.ok (SuperTaskPilot.LoopOutcome.running st) => st.current_task.context.cycle_count
  | Except.ok (SuperTaskPilot.LoopOutcome.exited _ st) => st.current_task.context.cycle_count
  | Except.error _ => 0

/-- The length of the current task's prior-actions list at the end of a loop
run. -/
def priorActionsLenOfOutcome : Except EngineError SuperTaskPilot.LoopOutcome → Nat
  | Except.ok (SuperTaskPilot.LoopOutcome.running st) =>
    st.current_task.context.prior_actions.length
  | Except.ok (SuperTaskPilot.LoopOutcome.exited _ st) =>
    st.current_task.context.prior_actions.length
  | Except.error _ => 0

/-- The engine-held context at the end of a loop run. -/
def currentContextOfOutcome : Except EngineError SuperTaskPilot.LoopOutcome → Option Context
  | Except.ok (SuperTaskPilot.LoopOutcome.running st) => some st.current_context
  | Except.ok (SuperTaskPilot.LoopOutcome.exited c _) => some c
  | Except.error _ => none

/-- The current task's status at the end of a loop run. -/
def statusOfOutcome : Except EngineError SuperTaskPilot.LoopOutcome → Option TaskStatus
  | Except.ok (SuperTaskPilot.LoopOutcome.running st) => some st.current_task.context.status
  | Except.ok (SuperTaskPilot.LoopOutcome.exited _ st) => some st.current_task.context.status
  | Except.error _ => none

def objA : String := "find the capital of France"
def webSearchName : String := "web_search"
def missingName : String := "no_such_ability"
def xName : String := "ability_x"
def yName : String := "ability_y"

/-- A benign concrete ability: a web-search tool whose body always
succeeds. -/
def webSearch : Ability :=
  { name := webSearchName
    description := "search the web"
    body := fun _args => Except.ok ("Paris", ["capital of France is Paris"]) }

def registryA : AbilityRegistry := { abilities := [webSearch] }

def emptyRegistry : AbilityRegistry := { abilities := [] }

def strategyA : PromptStrategy :=
  { model_classification := LanguageModelClassification.SMART_MODEL
    build_prompt := fun _ => { messages := [], functions := [] } }

/-- A provider oracle that always selects the registered web-search
ability. -/
def providerOK : Provider :=
  { remaining_budget := 100
    create_language_completion := fun _ =>
      Except.ok { next_ability := some webSearchName, ability_arguments := [] } }

/-- A provider oracle whose response names an ability absent from the
registry. -/
def providerMissing : Provider :=
  { remaining_budget := 100
    create_language_completion := fun _ =>
      Except.ok { next_ability := some missingName, ability_arguments := [] } }

/-- A provider oracle naming a first arbitrary ability (for the empty
registry scenario). -/
def providerX : Provider :=
  { remaining_budget := 100
    create_language_completion := fun _ =>
      Except.ok { next_ability := some xName, ability_arguments := [] } }

/-- A provider oracle naming a second arbitrary ability (for the empty
registry scenario). -/
def providerY : Provider :=
  { remaining_budget := 100
    create_language_completion := fun _ =>
      Except.ok { next_ability := some yName, ability_arguments := [] } }

def osA : String := "Linux test"
def timeA : String := "Mon Jan 1 00:00:00 2024"

/-- The benign AUTO-mode pilot: one registered ability, a provider that
always selects it, and the default cycle budget of 3 (super.py line 59). -/
def pilotA : Pilot :=
  { execution_nature := ExecutionNature.AUTO
    ability_registry := registryA
    prompt_strategy := strategyA
    providers := fun _ => providerOK
    max_task_cycle_count := 3
    os_info := osA
    current_time := timeA }

def pilotSeq : Pilot := { pilotA with execution_nature := ExecutionNature.SEQUENTIAL }

def pilotPar : Pilot := { pilotA with execution_nature := ExecutionNature.PARALLEL }

/-- An AUTO-mode pilot whose model response names an unregistered
ability. -/
def pilotB : Pilot := { pilotA with providers := fun _ => providerMissing }

/-- An AUTO-mode pilot with an empty ability registry. -/
def pilotE : Pilot :=
  { pilotA with ability_registry := emptyRegistry, providers := fun _ => providerX }

/-- The empty-registry pilot with a different provider oracle. -/
def pilotE2 : Pilot := { pilotE with providers := fun _ => providerY }

/-- The empty keyword-argument dictionary. -/
def kwN : PyDict := fun _ => none

def ctx0 : Context := { items := [] }

/-- The fresh per-run engine state right after construction: empty queues
and an empty engine context (super.py lines 102-107); the current task slot
is filled by `execute` before the first read. -/
def stA0 : PilotState :=
  { task_queue := []
    completed_tasks := []
    current_task := Task.factory objA
    current_context := ctx0 }

/-- One specific run of the engine: the benign AUTO pilot on the string
objective, with no caller context and the given fuel. -/
def runA (fuel : Nat) : Except EngineError SuperTaskPilot.LoopOutcome :=
  SuperTaskPilot.execute pilotA (Sum.inl objA) none kwN fuel stA0

/-- A faulting concrete ability: its body always raises. -/
def boomMsg : String := "boom"

def faultyAbility : Ability :=
  { name := webSearchName
    description := "always faults"
    body := fun _args => Except.error boomMsg }

/-- An AUTO-mode pilot whose single registered ability faults when
invoked. -/
def pilotF : Pilot := { pilotA with ability_registry := { abilities := [faultyAbility] } }

/-- A concrete ability action, the one the benign pilot produces. -/
def actW : AbilityAction :=
  { ability_name := webSearchName
    arguments := []
    result := "Paris"
    memories := ["capital of France is Paris"] }

/-- A concrete fresh task context. -/
def ctxW : TaskContext := (Task.factory objA).context

/-- The effect of `_update_tasks_and_memory` (super.py lines 176-193) on the
current task's context alone: every mutation of a task's execution context
anywhere in the engine goes through this function (the queue bookkeeping in
`perform_ability` and the loop in `execute` never touch the context's
fields). -/
def updateContext (ctx : TaskContext) (a : AbilityAction) : TaskContext :=
  { cycle_count := ctx.cycle_count + 1
    prior_actions := ctx.prior_actions ++ [a]
    memories := a.get_memories
    status := TaskStatus.DONE
    enough_info := true }

/-- One lifetime step of a task's execution context: the effect of one
successful ability invocation. -/
def ContextStep (c c' : TaskContext) : Prop :=
  ∃ a : AbilityAction, c' = updateContext c a

/-- A caller-supplied OS descriptor overriding the runtime one. -/
def userOs : String := "UserOS override"

/-- A concrete caller keyword dictionary that collides with the runtime
`os_info` key and omits every other key. -/
def kwOverride : PyDict :=
  fun k => if k = osInfoKey then some (TValue.str userOs) else none

/-- Helper: the fuel-indexed `execute` loop never reaches the exit branch of
its guard, whatever the fuel and state, because the guard is constantly
true. -/
theorem executeLoop_not_exited (p : Pilot) (kw : PyDict) :
    ∀ (fuel : Nat) (st : PilotState),
      loopExited (SuperTaskPilot.executeLoop p kw fuel st) = false := by
  intro fuel
  induction fuel with
  | zero => intro st; rfl
  | succ n ih =>
    intro st
    show loopExited (SuperTaskPilot.executeLoop p kw (n + 1) st) = false
    rw [SuperTaskPilot.executeLoop]
    simp only [SuperTaskPilot.taskNeDone, if_true]
    cases h : SuperTaskPilot.exec_abilities p kw st with
    | error e => rfl
    | ok r =>
      obtain ⟨acts, st'⟩ := r
      exact ih st'

/-- C1: the claim says `execute` terminates with status DONE or FAILED
within `max_task_cycle_count` cycles.  On the code this fails: the loop
guard at super.py line 122 compares the Task object itself (not its status)
with the enum member `TaskStatus.DONE`, which are never equal, so the guard
is constantly true and the loop never exits, for every objective (string or
pre-built task), every fuel and every state. -/
theorem execute_loop_never_exits (p : Pilot) (objective : String ⊕ Task)
    (ctxArg : Option Context) (kw : PyDict) (fuel : Nat) (st0 : PilotState) :
    (∀ t : Task, SuperTaskPilot.taskNeDone t = true) ∧
    loopExited (SuperTaskPilot.execute p objective ctxArg kw fuel st0) = false := by
  constructor
  · intro t; rfl
  · exact executeLoop_not_exited p kw fuel _

/-- C3: the claim says the value `execute` returns is the task's final
execution context.  On the code this fails twice over, evaluated here on a
concrete benign run: after four cycles the engine-held `_current_context`
that the return statement at super.py line 125 would produce is still the
untouched initial context, while the task's own context has advanced to
cycle count 4 with 4 recorded actions and status DONE — and the loop never
reaches the return statement at all. -/
theorem execute_returns_engine_context_not_task_context :
    currentContextOfOutcome (runA 4) = some ctx0 ∧
    cycleCountOfOutcome (runA 4) = 4 ∧
    priorActionsLenOfOutcome (runA 4) = 4 ∧
    statusOfOutcome (runA 4) = some TaskStatus.DONE ∧
    loopExited (runA 4) = false :=
  ⟨rfl, rfl, rfl, rfl, rfl⟩

/-- C5 counterexample: `_update_tasks_and_memory` does not produce only the
four changes the claim lists; evaluated on a fresh context it also flips the
context's `enough_info` flag from false to true (super.py line 191). -/
theorem update_changes_enough_info_cex :
    stA0.current_task.context.enough_info = false ∧
    (SuperTaskPilot.update_tasks_and_memory stA0 actW).current_task.context.enough_info
      = true :=
  ⟨rfl, rfl⟩

/-- C5 amended: the complete characterisation of `_update_tasks_and_memory`
on the current task's context: cycle count incremented by one, the action
appended to prior actions, memories overwritten with the action's extracted
knowledge, status set to DONE — and additionally `enough_info` set to
true. -/
theorem update_tasks_and_memory_characterization (st : PilotState) (a : AbilityAction) :
    SuperTaskPilot.update_tasks_and_memory st a =
      { st with
        current_task :=
          { st.current_task with
            context :=
              { cycle_count := st.current_task.context.cycle_count + 1
                prior_actions := st.current_task.context.prior_actions ++ [a]
                memories := a.get_memories
                status := TaskStatus.DONE
                enough_info := true } } } :=
  rfl

/-- C6 counterexample: the cycle budget is not an invariant of the engine.
With the default budget of 3 (super.py line 59), four cycles of the benign
run drive the task context's cycle count to 4, a reachable state exceeding
the budget. -/
theorem cycle_count_exceeds_budget_cex :
    pilotA.max_task_cycle_count = 3 ∧
    cycleCountOfOutcome (runA 4) = 4 ∧
    ¬ cycleCountOfOutcome (runA 4) ≤ pilotA.max_task_cycle_count := by
  refine ⟨rfl, rfl, ?_⟩
  decide

/-- C6 amended: `_update_tasks_and_memory` increments the current task's
cycle count by exactly one, unconditionally — no operation of the engine
consults `max_task_cycle_count`, so the count grows without bound. -/
theorem cycle_count_unbounded (st : PilotState) (a : AbilityAction) :
    (SuperTaskPilot.update_tasks_and_memory st a).current_task.context.cycle_count
      = st.current_task.context.cycle_count + 1 :=
  rfl

/-- C2 counterexample: `execute` raises for ordinary operational failures
instead of returning a FAILED task/context.  Evaluated on two concrete runs:
when the model names an ability absent from the registry the unknown-ability
error escapes `execute` as an exception, and when the selected ability's
body faults the ability-execution error escapes likewise; in neither case is
any context with status FAILED returned. -/
theorem execute_raises_on_operational_failure_cex :
    SuperTaskPilot.execute pilotB (Sum.inl objA) none kwN 1 stA0
      = Except.error (EngineError.unknownAbility missingName) ∧
    SuperTaskPilot.execute pilotF (Sum.inl objA) none kwN 1 stA0
      = Except.error (EngineError.abilityExecution webSearchName boomMsg) :=
  ⟨rfl, rfl⟩

/-- C2 amended: `perform_ability` has no handler for operational failures:
a failing model call, a response without the `next_ability` key, and a
failing registry invocation (unknown ability or faulting body) all propagate
out unchanged as exceptions; and a successful invocation always leaves the
current task's status DONE — the engine never assigns FAILED and never
records a failure reason on the context. -/
theorem perform_ability_propagates_failures (p : Pilot) (st : PilotState)
    (schema : List AbilitySchema) (kw : PyDict) :
    (∀ e, SuperTaskPilot.determineResult p st schema kw = Except.error e →
       SuperTaskPilot.perform_ability p st schema kw = Except.error e) ∧
    (∀ resp, SuperTaskPilot.determineResult p st schema kw = Except.ok resp →
       (resp.next_ability = none →
          SuperTaskPilot.perform_ability p st schema kw
            = Except.error (EngineError.keyError nextAbilityKey)) ∧
       ∀ nm e, resp.next_ability = some nm →
         p.ability_registry.perform nm resp.ability_arguments = Except.error e →
         SuperTaskPilot.perform_ability p st schema kw = Except.error e) ∧
    (∀ act st', SuperTaskPilot.perform_ability p st schema kw = Except.ok (act, st') →
       st'.current_task.context.status = TaskStatus.DONE) := by
  refine ⟨?_, ?_, ?_⟩
  · intro e h
    simp only [SuperTaskPilot.perform_ability, h]
  · intro resp h
    constructor
    · intro hn
      simp only [SuperTaskPilot.perform_ability, h, hn]
    · intro nm e hn hp
      simp only [SuperTaskPilot.perform_ability, h, hn, hp]
  · intro act st' h
    simp only [SuperTaskPilot.perform_ability] at h
    cases hd : SuperTaskPilot.determineResult p st schema kw with
    | error e => rw [hd] at h; cases h
    | ok resp =>
      simp only [hd] at h
      cases hn : resp.next_ability with
      | none => simp only [hn] at h; cases h
      | some nm =>
        simp only [hn] at h
        cases hp : p.ability_registry.perform nm resp.ability_arguments with
        | error e => simp only [hp] at h; cases h
        | ok action =>
          simp only [hp] at h
          by_cases hdone :
              (SuperTaskPilot.update_tasks_and_memory st action).current_task.context.status
                = TaskStatus.DONE
          · rw [if_pos hdone] at h
            injection h with h'
            injection h' with h1 h2
            rw [← h2]
            exact hdone
          · exact absurd rfl hdone

/-- C2 amended, witness: the propagation clause applied at the concrete
pilot whose model response names an unregistered ability. -/
theorem perform_ability_propagates_failures_witness :
    SuperTaskPilot.perform_ability pilotB stA0 pilotB.ability_registry.dump_abilities kwN
      = Except.error (EngineError.unknownAbility missingName) :=
  ((perform_ability_propagates_failures pilotB stA0
      pilotB.ability_registry.dump_abilities kwN).2.1
    { next_ability := some missingName, ability_arguments := [] } rfl).2
    missingName (EngineError.unknownAbility missingName) rfl rfl

/-- Helper: a successful sequential cycle produces exactly one ability
action per ability of the list. -/
theorem execAbilitiesSeq_ok_length (p : Pilot) (kw : PyDict) :
    ∀ (l : List Ability) (st : PilotState) (acts : List AbilityAction) (st' : PilotState),
      SuperTaskPilot.execAbilitiesSeq p kw l st = Except.ok (acts, st') →
      acts.length = l.length := by
  intro l
  induction l with
  | nil =>
    intro st acts st' h
    injection h with h'
    injection h' with h1 h2
    subst h1
    rfl
  | cons a rest ih =>
    intro st acts st' h
    rw [SuperTaskPilot.execAbilitiesSeq] at h
    cases hp : SuperTaskPilot.perform_ability p st [a.dump] kw with
    | error e => rw [hp] at h; cases h
    | ok r =>
      obtain ⟨act, st1⟩ := r
      simp only [hp] at h
      cases hr : SuperTaskPilot.execAbilitiesSeq p kw rest st1 with
      | error e => simp only [hr] at h; cases h
      | ok r2 =>
        obtain ⟨acts1, st2⟩ := r2
        simp only [hr] at h
        injection h with h'
        injection h' with h1 h2
        subst h1
        simp only [List.length_cons]
        exact congrArg Nat.succ (ih st1 acts1 st2 hr)

/-- C4: the execution-mode dispatch of `exec_abilities`.  In AUTO mode the
cycle makes a single model call carrying the whole ability catalogue and
invokes at most one ability; in SEQUENTIAL mode it makes one
`perform_ability` call per registered ability, in registration order, each
with that ability's own schema, and a successful cycle yields exactly one
action per registered ability; in PARALLEL mode every registered ability is
invoked and every result is collected before the cycle returns. -/
theorem exec_abilities_mode_dispatch (p : Pilot) (kw : PyDict) (st : PilotState) :
    (p.execution_nature = ExecutionNature.AUTO →
       SuperTaskPilot.execAbilitiesModelCalls p = [p.ability_registry.dump_abilities] ∧
       actsLenOf (SuperTaskPilot.exec_abilities p kw st) ≤ 1) ∧
    (p.execution_nature = ExecutionNature.SEQUENTIAL →
       SuperTaskPilot.exec_abilities p kw st
         = SuperTaskPilot.execAbilitiesSeq p kw p.ability_registry.abilities st ∧
       SuperTaskPilot.execAbilitiesModelCalls p
         = p.ability_registry.abilities.map (fun a => [a.dump]) ∧
       (exceptOk (SuperTaskPilot.exec_abilities p kw st) = true →
          actsLenOf (SuperTaskPilot.exec_abilities p kw st)
            = p.ability_registry.abilities.length)) ∧
    (p.execution_nature = ExecutionNature.PARALLEL →
       SuperTaskPilot.exec_abilities p kw st
         = SuperTaskPilot.execAbilitiesSeq p kw p.ability_registry.abilities st ∧
       SuperTaskPilot.execAbilitiesModelCalls p
         = p.ability_registry.abilities.map (fun a => [a.dump]) ∧
       (exceptOk (SuperTaskPilot.exec_abilities p kw st) = true →
          actsLenOf (SuperTaskPilot.exec_abilities p kw st)
            = p.ability_registry.abilities.length)) := by
  refine ⟨?_, ?_, ?_⟩
  · intro hmode
    constructor
    · simp [SuperTaskPilot.execAbilitiesModelCalls, hmode]
    · simp only [SuperTaskPilot.exec_abilities, hmode]
      cases hp : SuperTaskPilot.perform_ability p st p.ability_registry.dump_abilities kw with
      | error e => simp [actsLenOf]
      | ok r =>
        obtain ⟨act, st1⟩ := r
        simp [actsLenOf]
  · intro hmode
    have harm : SuperTaskPilot.exec_abilities p kw st
        = SuperTaskPilot.execAbilitiesSeq p kw p.ability_registry.abilities st := by
      simp [SuperTaskPilot.exec_abilities, hmode]
    refine ⟨harm, by simp [SuperTaskPilot.execAbilitiesModelCalls, hmode], ?_⟩
    intro hok
    rw [harm] at hok ⊢
    cases hr : SuperTaskPilot.execAbilitiesSeq p kw p.ability_registry.abilities st with
    | error e => rw [hr] at hok; cases hok
    | ok r =>
      obtain ⟨acts, st'⟩ := r
      simp only [hr, actsLenOf]
      exact execAbilitiesSeq_ok_length p kw p.ability_registry.abilities st acts st' hr
  · intro hmode
    have harm : SuperTaskPilot.exec_abilities p kw st
        = SuperTaskPilot.execAbilitiesSeq p kw p.ability_registry.abilities st := by
      simp [SuperTaskPilot.exec_abilities, hmode]
    refine ⟨harm, by simp [SuperTaskPilot.execAbilitiesModelCalls, hmode], ?_⟩
    intro hok
    rw [harm] at hok ⊢
    cases hr : SuperTaskPilot.execAbilitiesSeq p kw p.ability_registry.abilities st with
    | error e => rw [hr] at hok; cases hok
    | ok r =>
      obtain ⟨acts, st'⟩ := r
      simp only [hr, actsLenOf]
      exact execAbilitiesSeq_ok_length p kw p.ability_registry.abilities st acts st' hr

/-- C4 witness: the dispatch facts applied at the three concrete pilots, one
per execution mode, over the one-ability registry. -/
theorem exec_abilities_mode_dispatch_witness :
    actsLenOf (SuperTaskPilot.exec_abilities pilotA kwN stA0) ≤ 1 ∧
    actsLenOf (SuperTaskPilot.exec_abilities pilotSeq kwN stA0)
      = pilotSeq.ability_registry.abilities.length ∧
    actsLenOf (SuperTaskPilot.exec_abilities pilotPar kwN stA0)
      = pilotPar.ability_registry.abilities.length :=
  ⟨((exec_abilities_mode_dispatch pilotA kwN stA0).1 rfl).2,
   ((exec_abilities_mode_dispatch pilotSeq kwN stA0).2.1 rfl).2.2 rfl,
   ((exec_abilities_mode_dispatch pilotPar kwN stA0).2.2 rfl).2.2 rfl⟩

/-- C7: the task context's lifetime invariant.  Every engine mutation of a
task's execution context goes through `_update_tasks_and_memory`, whose
effect on the context is `updateContext` (first clause); and along any
sequence of such steps the prior-actions list of the later context is the
earlier list extended at the end by exactly the actions performed, in
order — append-only, chronological — while the cycle count grows by their
number, hence never decreases. -/
theorem prior_actions_append_only :
    (∀ (st : PilotState) (a : AbilityAction),
       (SuperTaskPilot.update_tasks_and_memory st a).current_task.context
         = updateContext st.current_task.context a) ∧
    ∀ (c c' : TaskContext), Relation.ReflTransGen ContextStep c c' →
      ∃ as : List AbilityAction,
        c'.prior_actions = c.prior_actions ++ as ∧
        c'.cycle_count = c.cycle_count + as.length := by
  constructor
  · intro st a
    rfl
  · intro c c' h
    induction h with
    | refl => exact ⟨[], by simp⟩
    | tail _hab hbc ih =>
      obtain ⟨as, h1, h2⟩ := ih
      obtain ⟨a, rfl⟩ := hbc
      refine ⟨as ++ [a], ?_, ?_⟩
      · simp [updateContext, h1]
      · simp only [updateContext, h2, List.length_append, List.length_cons,
          List.length_nil]
        omega

/-- C7 witness: the lifetime invariant applied to the one-step lifetime that
performs the concrete web-search action on a fresh context. -/
theorem prior_actions_append_only_witness :
    ∃ as : List AbilityAction,
      (updateContext ctxW actW).prior_actions = ctxW.prior_actions ++ as ∧
      (updateContext ctxW actW).cycle_count = ctxW.cycle_count + as.length :=
  prior_actions_append_only.2 ctxW (updateContext ctxW actW)
    (Relation.ReflTransGen.single ⟨actW, rfl⟩)

/-- C8: the template variables `chat_with_model` hands to `build_prompt`
are exactly the runtime-context variables (OS descriptor, remaining
provider budget, current time) updated with the caller-supplied keyword
arguments: a caller-supplied value wins on key collision, an absent key
falls back to the runtime value, and the three runtime keys are always
present in the merged dictionary. -/
theorem chat_with_model_merges_runtime_kwargs (p : Pilot) (strategy : PromptStrategy)
    (kwargs : PyDict) :
    SuperTaskPilot.chat_with_model p strategy kwargs
      = (p.providers strategy.model_classification).create_language_completion
          (strategy.build_prompt (SuperTaskPilot.chatMergedKwargs p strategy kwargs)) ∧
    (∀ k v, kwargs k = some v →
       SuperTaskPilot.chatMergedKwargs p strategy kwargs k = some v) ∧
    (∀ k, kwargs k = none →
       SuperTaskPilot.chatMergedKwargs p strategy kwargs k
         = SuperTaskPilot.make_template_kwargs_for_strategy p strategy k) ∧
    (SuperTaskPilot.chatMergedKwargs p strategy kwargs osInfoKey).isSome = true ∧
    (SuperTaskPilot.chatMergedKwargs p strategy kwargs apiBudgetKey).isSome = true ∧
    (SuperTaskPilot.chatMergedKwargs p strategy kwargs currentTimeKey).isSome = true := by
  have hmerge : ∀ k, kwargs k = none →
      SuperTaskPilot.chatMergedKwargs p strategy kwargs k
        = SuperTaskPilot.make_template_kwargs_for_strategy p strategy k := by
    intro k hk
    simp [SuperTaskPilot.chatMergedKwargs, pyUpdate, hk]
  have hsome : ∀ k, (SuperTaskPilot.make_template_kwargs_for_strategy
        p strategy k).isSome = true →
      (SuperTaskPilot.chatMergedKwargs p strategy kwargs k).isSome = true := by
    intro k hk
    cases h : kwargs k with
    | none => rw [hmerge k h]; exact hk
    | some v =>
      simp [SuperTaskPilot.chatMergedKwargs, pyUpdate, h]
  refine ⟨rfl, ?_, hmerge, ?_, ?_, ?_⟩
  · intro k v hk
    simp [SuperTaskPilot.chatMergedKwargs, pyUpdate, hk]
  · exact hsome osInfoKey rfl
  · exact hsome apiBudgetKey rfl
  · exact hsome currentTimeKey rfl

/-- C8 witness: the merge facts applied at a concrete caller dictionary that
overrides the OS descriptor and omits the current time. -/
theorem chat_with_model_merges_runtime_kwargs_witness :
    SuperTaskPilot.chatMergedKwargs pilotA strategyA kwOverride osInfoKey
      = some (TValue.str userOs) ∧
    SuperTaskPilot.chatMergedKwargs pilotA strategyA kwOverride currentTimeKey
      = SuperTaskPilot.make_template_kwargs_for_strategy pilotA strategyA currentTimeKey :=
  ⟨(chat_with_model_merges_runtime_kwargs pilotA strategyA kwOverride).2.1
      osInfoKey (TValue.str userOs) rfl,
   (chat_with_model_merges_runtime_kwargs pilotA strategyA kwOverride).2.2.1
      currentTimeKey rfl⟩

/-- C9 counterexample: with an empty ability registry in AUTO mode the
engine does not fail with a configuration (construction/validation) error.
Construction succeeds, a model call is performed over the empty catalogue,
and the failure that then escapes `execute` is an unknown-ability runtime
error whose content depends on the model response — two pilots differing
only in their provider oracle fail with different errors. -/
theorem empty_registry_auto_no_config_error_cex :
    SuperTaskPilot.execute pilotE (Sum.inl objA) none kwN 1 stA0
      = Except.error (EngineError.unknownAbility xName) ∧
    SuperTaskPilot.execute pilotE2 (Sum.inl objA) none kwN 1 stA0
      = Except.error (EngineError.unknownAbility yName) ∧
    EngineError.isConfiguration (EngineError.unknownAbility xName) = false :=
  ⟨rfl, rfl, rfl⟩

/-- C9 amended: with an empty registry in AUTO mode, `exec_abilities` first
performs the model call over the empty catalogue; if the call fails its error
propagates, and if it returns an ability name the registry lookup fails with
an unknown-ability error for that name, propagated as an exception — never a
configuration error, and never a hang. -/
theorem empty_registry_auto_unknown_ability (p : Pilot) (st : PilotState) (kw : PyDict)
    (hreg : p.ability_registry.abilities = [])
    (hauto : p.execution_nature = ExecutionNature.AUTO) :
    (∀ resp nm,
       SuperTaskPilot.determineResult p st p.ability_registry.dump_abilities kw
         = Except.ok resp →
       resp.next_ability = some nm →
       SuperTaskPilot.exec_abilities p kw st
         = Except.error (EngineError.unknownAbility nm)) ∧
    (∀ e, SuperTaskPilot.determineResult p st p.ability_registry.dump_abilities kw
         = Except.error e →
       SuperTaskPilot.exec_abilities p kw st = Except.error e) := by
  have hperform : ∀ nm args, p.ability_registry.perform nm args
      = Except.error (EngineError.unknownAbility nm) := by
    intro nm args
    simp [AbilityRegistry.perform, AbilityRegistry.find, hreg]
  constructor
  · intro resp nm hd hn
    simp only [SuperTaskPilot.exec_abilities, hauto]
    simp only [SuperTaskPilot.perform_ability, hd, hn, hperform]
  · intro e hd
    simp only [SuperTaskPilot.exec_abilities, hauto]
    simp only [SuperTaskPilot.perform_ability, hd]

/-- C9 amended, witness: the unknown-ability clause applied at the concrete
empty-registry AUTO pilot whose model response names an arbitrary
ability. -/
theorem empty_registry_auto_unknown_ability_witness :
    SuperTaskPilot.exec_abilities pilotE kwN stA0
      = Except.error (EngineError.unknownAbility xName) :=
  (empty_registry_auto_unknown_ability pilotE stA0 kwN rfl rfl).1
    { next_ability := some xName, ability_arguments := [] } xName rfl rfl

/-- C10: `determine_exec_ability` and `determine_next_ability` (super.py
lines 197-215) are extensionally equal: for every pilot, task, ability
schema and keyword arguments they make the same `chat_with_model` call with
the same prompt strategy and arguments and return the same response. -/
theorem determine_abilities_extensionally_equal (p : Pilot) (task : Task)
    (schema : List AbilitySchema) (kwargs : PyDict) :
    SuperTaskPilot.determine_exec_ability p task schema kwargs
      = SuperTaskPilot.determine_next_ability p task schema kwargs :=
  rfl

end Superpilot
